import Mathlib

set_option maxHeartbeats 1000000

/-!
Shallow embedding of the authentication/session-token core of the
`microservices-ecommerce` repository (auth service): user documents
(`user.model.ts`), the Redis-backed session registry (refresh-token tracking
and access-token blacklist in `jwt.service.ts`), the auth/user controllers
(`auth.controller.ts`, `user.controller.ts`) and the authorization guard
middleware (`auth.middleware.ts`).

Conventions: times are integer epoch values (milliseconds for the Mongo-side
`Date` fields, seconds for JWT claims, matching the source); the opaque
outputs of `jwt.sign`, `bcrypt` and `Math.random` are passed in as parameters
(the controllers' control flow never inspects them); Redis is a finite map
from keys to (value, TTL-at-write) pairs.  The string keyspace uses the
disjoint literal tags `token:` and `blacklist:` (the constants
`TOKEN_...`/`BLACKLIST_...` in `jwt.service.ts`), modelled as the tagged sum
`RedisKey`, which represents that keyspace exactly.
-/

/-- A persisted user document (`userSchema` in `user.model.ts`).  `password`
holds the bcrypt hash (the pre-save hook hashes any modified plaintext);
`refreshTokens` is the schema's (unused by the controllers) embedded token
array, kept here as the list of token strings. -/
structure StoredUser where
  id : String
  email : String
  password : String
  firstName : String
  lastName : String
  role : String
  isActive : Bool
  isEmailVerified : Bool
  emailVerificationToken : Option String
  passwordResetToken : Option String
  passwordResetExpires : Option Int
  lastLogin : Option Int
  refreshTokens : List String
  deriving DecidableEq, Repr

/-- The pair returned by `JWTService.generateTokenPair`. -/
structure TokenPair where
  accessToken : String
  refreshToken : String
  deriving DecidableEq, Repr

/-- Decoded access-token claims (`TokenPayload` in `jwt.service.ts`). -/
structure TokenPayload where
  userId : String
  email : String
  role : String
  deriving DecidableEq, Repr

/-- A Redis key.  `tokenKey t` stands for the string `token:` ++ t and
`blacklistKey t` for `blacklist:` ++ t; since the two literal tags differ,
tagged keys model the prefixed string keyspace exactly. -/
inductive RedisKey where
  | tokenKey (token : String)
  | blacklistKey (token : String)
  deriving DecidableEq, Repr

/-- The session-registry state: Redis entries as (key, value, TTL-in-seconds
at the time of the write).  TTL expiry itself is external to the claims
settled here; what matters is which TTL each `setex` writes. -/
structure RedisState where
  entries : List (RedisKey × String × Int)
  deriving DecidableEq, Repr

def emptyRedis : RedisState := ⟨[]⟩

/-- `redis.get key` — first entry for the key, if any. -/
def redisGet (r : RedisState) (k : RedisKey) : Option String :=
  (r.entries.find? (fun e => e.1 == k)).map (fun e => e.2.1)

/-- TTL recorded for a key (observer used to state TTL claims). -/
def redisGetTtl (r : RedisState) (k : RedisKey) : Option Int :=
  (r.entries.find? (fun e => e.1 == k)).map (fun e => e.2.2)

/-- `redis.setex key ttl value` — overwrite the key with the value and TTL. -/
def redisSetex (r : RedisState) (k : RedisKey) (ttl : Int) (v : String) : RedisState :=
  ⟨(k, v, ttl) :: r.entries.filter (fun e => !(e.1 == k))⟩

/-- `redis.del key`. -/
def redisDel (r : RedisState) (k : RedisKey) : RedisState :=
  ⟨r.entries.filter (fun e => !(e.1 == k))⟩

/-- The hard-coded TTL (`7 * 24 * 60 * 60` seconds, a literal in
`JWTService.generateTokenPair`) used for refresh-token registry entries. -/
def REFRESH_REGISTRY_TTL : Int := 7 * 24 * 60 * 60

/-- The JWT lifetimes from `config.jwt`, in seconds.  `expiresIn` and
`refreshExpiresIn` come from the environment (defaults `15m` / `7d`). -/
structure JwtConfig where
  expiresInSec : Int
  refreshExpiresInSec : Int
  deriving DecidableEq, Repr

/-- `config.jwt` defaults: `expiresIn = '15m'`, `refreshExpiresIn = '7d'`. -/
def defaultJwtConfig : JwtConfig := ⟨15 * 60, 7 * 24 * 60 * 60⟩

/-- The signed lifetime of a refresh token: `jwt.sign` is called with
`expiresIn: config.jwt.refreshExpiresIn`, so the `exp` claim is issuance time
plus the configured refresh lifetime. -/
def refreshTokenSignedLifetime (cfg : JwtConfig) : Int :=
  cfg.refreshExpiresInSec

/-- `JWTService.generateTokenPair`: signs an access and a refresh token for
the user (the signed strings are the `accessToken`/`refreshToken` parameters)
and stores the refresh token in Redis under `token:` ++ refreshToken with the
user id as value and the hard-coded 7-day TTL. -/
def generateTokenPair (r : RedisState) (userId : String)
    (accessToken refreshToken : String) : TokenPair × RedisState :=
  (⟨accessToken, refreshToken⟩,
   redisSetex r (.tokenKey refreshToken) REFRESH_REGISTRY_TTL userId)

/-- `JWTService.validateRefreshToken`: look the token up in the registry,
returning the owning user id if present. -/
def validateRefreshToken (r : RedisState) (token : String) : Option String :=
  redisGet r (.tokenKey token)

/-- `JWTService.invalidateRefreshToken`: delete the registry mapping. -/
def invalidateRefreshToken (r : RedisState) (token : String) : RedisState :=
  redisDel r (.tokenKey token)

/-- `JWTService.isTokenBlacklisted`: the blacklist entry exists with value
`"1"`. -/
def isTokenBlacklisted (r : RedisState) (token : String) : Bool :=
  redisGet r (.blacklistKey token) == some "1"

/-- `JWTService.blacklistToken`: `jwt.decode` the token without verification
(`decodeExp` returns its `exp` claim in epoch seconds, or `none` when the
token does not decode or has no `exp`); if the claim is present and non-zero
(JS truthiness of `decoded.exp`) and the remaining lifetime
`exp - floor(now / 1000)` is positive, `setex` a `"1"` marker under
`blacklist:` ++ token with exactly that TTL; otherwise write nothing. -/
def blacklistToken (decodeExp : String → Option Int) (nowSec : Int)
    (r : RedisState) (token : String) : RedisState :=
  match decodeExp token with
  | none => r
  | some e =>
    if e == 0 then r
    else
      let ttl := e - nowSec
      if 0 < ttl then redisSetex r (.blacklistKey token) ttl "1" else r

/-- `User.findOne({ email })` over the user collection (modelled as a list of
documents). -/
def findByEmail (users : List StoredUser) (email : String) : Option StoredUser :=
  users.find? (fun u => u.email == email)

/-- `User.findById(id)`. -/
def findById (users : List StoredUser) (id : String) : Option StoredUser :=
  users.find? (fun u => u.id == id)

/-- `user.save()` after mutating a loaded document: replace the document with
the same id. -/
def saveUser (users : List StoredUser) (u : StoredUser) : List StoredUser :=
  users.map (fun v => if v.id == u.id then u else v)

/-- Outcome of `AuthController.login`. -/
inductive LoginResult where
  | ok (user : StoredUser) (tokens : TokenPair)
  | invalidCredentials
  | accountDeactivated
  deriving DecidableEq, Repr

/-- `AuthController.login`: find the user by email (missing →
`INVALID_CREDENTIALS` 401); `comparePassword` via bcrypt (`compare candidate
hash`, mismatch → `INVALID_CREDENTIALS` 401); then the `isActive` check
(inactive → `ACCOUNT_DEACTIVATED` 403); on success set `lastLogin`, save, and
issue a token pair (`newAccess`/`newRefresh` are the fresh signed tokens). -/
def login (compare : String → String → Bool) (users : List StoredUser)
    (r : RedisState) (email password : String) (now : Int)
    (newAccess newRefresh : String) :
    LoginResult × List StoredUser × RedisState :=
  match findByEmail users email with
  | none => (.invalidCredentials, users, r)
  | some user =>
    if !(compare password user.password) then (.invalidCredentials, users, r)
    else if !user.isActive then (.accountDeactivated, users, r)
    else
      let user1 := { user with lastLogin := some now }
      let users1 := saveUser users user1
      let (tokens, r1) := generateTokenPair r user1.id newAccess newRefresh
      (.ok user1 tokens, users1, r1)

/-- Outcome of `AuthController.refreshToken`. -/
inductive RefreshResult where
  | ok (tokens : TokenPair)
  | invalidRefreshToken
  | userNotFound
  deriving DecidableEq, Repr

/-- `AuthController.refreshToken`: `verifyRefresh` is
`JWTService.verifyRefreshToken` (signature/issuer/expiry check returning the
decoded `userId`, or `none` when `jwt.verify` throws → `INVALID_REFRESH_TOKEN`
401); then the Redis lookup must return the same user id
(`INVALID_REFRESH_TOKEN` 401 on miss or mismatch); the user must exist and be
active (`USER_NOT_FOUND` 404); only then is the old entry deleted and a new
pair issued. -/
def refreshToken (verifyRefresh : String → Option String)
    (users : List StoredUser) (r : RedisState) (token : String)
    (newAccess newRefresh : String) : RefreshResult × RedisState :=
  match verifyRefresh token with
  | none => (.invalidRefreshToken, r)
  | some decodedUserId =>
    match validateRefreshToken r token with
    | none => (.invalidRefreshToken, r)
    | some userId =>
      if !(userId == decodedUserId) then (.invalidRefreshToken, r)
      else
        match findById users userId with
        | none => (.userNotFound, r)
        | some user =>
          if !user.isActive then (.userNotFound, r)
          else
            let r1 := invalidateRefreshToken r token
            let (tokens, r2) := generateTokenPair r1 userId newAccess newRefresh
            (.ok tokens, r2)

/-- `user.generatePasswordResetToken()` (`user.model.ts`): set a random
opaque token (the `token` parameter) and an expiry of now + 3600000 ms
(1 hour) on the document and return the token; the caller persists. -/
def generatePasswordResetToken (u : StoredUser) (token : String) (nowMs : Int) :
    String × StoredUser :=
  (token,
   { u with passwordResetToken := some token,
            passwordResetExpires := some (nowMs + 3600000) })

/-- The response body of `AuthController.forgotPassword`: always
`success: true` with the generic message; in development mode with an
existing user the spread `...(NODE_ENV === 'development' && { resetToken })`
additionally includes the reset token. -/
structure ForgotResponse where
  success : Bool
  message : String
  resetToken : Option String
  deriving DecidableEq, Repr

/-- `AuthController.forgotPassword`: unknown email → generic success, no
state change; known email → generate and persist a reset token, same generic
success message, and (only when `env = "development"`) the token in the
response. -/
def forgotPassword (env : String) (users : List StoredUser) (email : String)
    (newToken : String) (nowMs : Int) : ForgotResponse × List StoredUser :=
  match findByEmail users email with
  | none =>
    (⟨true, "If the email exists, a reset link has been sent", none⟩, users)
  | some user =>
    let (resetTok, user1) := generatePasswordResetToken user newToken nowMs
    (⟨true, "If the email exists, a reset link has been sent",
      if env == "development" then some resetTok else none⟩,
     saveUser users user1)

/-- The Mongo query filter of `AuthController.resetPassword`:
`{ passwordResetToken: token, passwordResetExpires: { $gt: Date.now() } }`. -/
def resetMatches (nowMs : Int) (token : String) (u : StoredUser) : Bool :=
  u.passwordResetToken == some token &&
  (match u.passwordResetExpires with
   | some e => decide (nowMs < e)
   | none => false)

/-- Outcome of `AuthController.resetPassword`. -/
inductive ResetResult where
  | ok
  | invalidToken
  deriving DecidableEq, Repr

/-- `AuthController.resetPassword`: find a user whose reset token matches and
whose expiry is strictly in the future (`$gt: Date.now()`); no match →
`INVALID_TOKEN` 400; otherwise store the new password (hashed by the pre-save
hook, modelled by `hash`) and clear both reset fields. -/
def resetPassword (hash : String → String) (users : List StoredUser)
    (token password : String) (nowMs : Int) :
    ResetResult × List StoredUser :=
  match users.find? (resetMatches nowMs token) with
  | none => (.invalidToken, users)
  | some user =>
    let user1 := { user with
      password := hash password,
      passwordResetToken := none,
      passwordResetExpires := none }
    (.ok, saveUser users user1)

/-- Outcome of the guard `authMiddleware`. -/
inductive GuardResult where
  | noToken
  | tokenRevoked
  | invalidToken
  | authorized (claims : TokenPayload)
  deriving DecidableEq, Repr

/-- Char-by-char head test: JS `String.prototype.startsWith` semantics. -/
def startsWithChars : List Char → List Char → Bool
  | [], _ => true
  | _ :: _, [] => false
  | p :: ps, c :: cs => p == c && startsWithChars ps cs

/-- `authHeader.startsWith('Bearer ')`. -/
def jsStartsWith (s pre : String) : Bool :=
  startsWithChars pre.data s.data

/-- JS `split(sep)` on a single-character separator, over the char list. -/
def splitChars (sep : Char) : List Char → List (List Char)
  | [] => [[]]
  | c :: cs =>
    if c == sep then [] :: splitChars sep cs
    else
      match splitChars sep cs with
      | [] => [[c]]
      | g :: gs => (c :: g) :: gs

/-- `authHeader.split(' ')[1]` — the text after the first space. -/
def extractBearer (h : String) : String :=
  (((splitChars ' ' h.data).map fun l => String.mk l).getD 1 "")

/-- `authMiddleware` (`auth.middleware.ts`): no header or one not starting
with `"Bearer "` → `NO_TOKEN` 401; then the blacklist check (before signature
verification) → `TOKEN_REVOKED` 401; then `JWTService.verifyAccessToken`
(signature/issuer/audience/expiry, modelled by `verifyAccess`; a throw is
caught → `INVALID_TOKEN` 401); on success the decoded claims are attached to
`ctx.user` and the handler runs. -/
def authMiddleware (verifyAccess : String → Option TokenPayload)
    (r : RedisState) (authHeader : Option String) : GuardResult :=
  match authHeader with
  | none => .noToken
  | some h =>
    if !(jsStartsWith h "Bearer ") then .noToken
    else
      let token := extractBearer h
      if isTokenBlacklisted r token then .tokenRevoked
      else
        match verifyAccess token with
        | none => .invalidToken
        | some decoded => .authorized decoded

/-- Outcome of `UserController.updateProfile`. -/
inductive UpdateResult where
  | ok (user : StoredUser)
  | userNotFound
  deriving DecidableEq, Repr

/-- The request body of `PUT /users/profile`; `none` models an absent field. -/
structure UpdateProfileRequest where
  firstName : Option String
  lastName : Option String
  deriving DecidableEq, Repr

/-- JS truthiness of an optional string field: absent or `""` is falsy. -/
def truthyStr : Option String → Bool
  | none => false
  | some s => !s.data.isEmpty

/-- `UserController.updateProfile`: load the user by id (`USER_NOT_FOUND`
404 when missing); `if (firstName) user.firstName = firstName` and likewise
for `lastName` (so absent or empty-string fields are ignored); save. -/
def updateProfile (users : List StoredUser) (userId : String)
    (req : UpdateProfileRequest) : UpdateResult × List StoredUser :=
  match findById users userId with
  | none => (.userNotFound, users)
  | some user =>
    let u1 := match req.firstName with
      | some s => if !s.data.isEmpty then { user with firstName := s } else user
      | none => user
    let u2 := match req.lastName with
      | some s => if !s.data.isEmpty then { u1 with lastName := s } else u1
      | none => u1
    (.ok u2, saveUser users u2)

/-- A JSON value as far as user serialization needs. -/
inductive JVal where
  | s (v : String)
  | b (v : Bool)
  | n (v : Int)
  | list (v : List String)
  deriving DecidableEq, Repr

/-- The raw document as a JSON object (field-name/value pairs), before the
`toJSON` transform; optional fields appear only when set, mirroring Mongo
documents. -/
def userToDoc (u : StoredUser) : List (String × JVal) :=
  [("_id", .s u.id), ("email", .s u.email), ("password", .s u.password),
   ("firstName", .s u.firstName), ("lastName", .s u.lastName),
   ("role", .s u.role), ("isActive", .b u.isActive),
   ("isEmailVerified", .b u.isEmailVerified)]
  ++ (match u.emailVerificationToken with
      | some t => [("emailVerificationToken", JVal.s t)]
      | none => [])
  ++ (match u.passwordResetToken with
      | some t => [("passwordResetToken", JVal.s t)]
      | none => [])
  ++ (match u.passwordResetExpires with
      | some e => [("passwordResetExpires", JVal.n e)]
      | none => [])
  ++ (match u.lastLogin with
      | some d => [("lastLogin", JVal.n d)]
      | none => [])
  ++ [("refreshTokens", .list u.refreshTokens), ("__v", .n 0)]

/-- The field names deleted by the schema's `toJSON` transform. -/
def strippedFields : List String :=
  ["password", "refreshTokens", "emailVerificationToken",
   "passwordResetToken", "__v"]

/-- The `toJSON.transform` of `userSchema`: delete `password`,
`refreshTokens`, `emailVerificationToken`, `passwordResetToken`, `__v`. -/
def toJSONTransform (doc : List (String × JVal)) : List (String × JVal) :=
  doc.filter (fun kv => !(strippedFields.contains kv.1))

/-- `user.toJSON()` as sent to clients. -/
def userToJSON (u : StoredUser) : List (String × JVal) :=
  toJSONTransform (userToDoc u)

/-! ### Registry lemmas -/

theorem find?_filter_of_imp {α : Type} (p q : α → Bool) (l : List α)
    (h : ∀ e, p e = true → q e = true) :
    (l.filter q).find? p = l.find? p := by
  induction l with
  | nil => rfl
  | cons a t ih =>
    cases hp : p a with
    | true =>
      have hq := h a hp
      simp [List.filter_cons, hq, List.find?_cons, hp]
    | false =>
      cases hq : q a <;>
        simp [List.filter_cons, hq, List.find?_cons, hp, ih]

theorem redisGet_setex_self (r : RedisState) (k : RedisKey) (ttl : Int)
    (v : String) : redisGet (redisSetex r k ttl v) k = some v := by
  simp [redisGet, redisSetex, List.find?_cons]

theorem redisGetTtl_setex_self (r : RedisState) (k : RedisKey) (ttl : Int)
    (v : String) : redisGetTtl (redisSetex r k ttl v) k = some ttl := by
  simp [redisGetTtl, redisSetex, List.find?_cons]

theorem redisGet_setex_ne (r : RedisState) (k k' : RedisKey) (ttl : Int)
    (v : String) (h : k' ≠ k) :
    redisGet (redisSetex r k ttl v) k' = redisGet r k' := by
  simp only [redisGet, redisSetex]
  rw [List.find?_cons_of_neg, find?_filter_of_imp]
  · intro e he
    simp only [beq_iff_eq] at he ⊢
    simp [he, h]
  · simp only [beq_iff_eq]
    exact fun hk => h hk.symm

theorem redisGet_del_self (r : RedisState) (k : RedisKey) :
    redisGet (redisDel r k) k = none := by
  simp only [redisDel, redisGet, Option.map_eq_none', List.find?_eq_none]
  intro e he
  simp only [List.mem_filter] at he
  simpa using he.2

/-! ### Claim C8 -/

/-- Claim C8 (counterexample): the claim says the registry entry written by
`generateTokenPair` carries a TTL equal to the configured refresh-token
lifetime for every configured lifetime.  With the refresh lifetime configured
to one day (86400 s), the stored TTL is still the hard-coded 604800 s, so the
claim fails. -/
theorem registry_ttl_not_configured_cex :
    ¬ (redisGetTtl (generateTokenPair emptyRedis "u1" "at1" "rt1").2
         (.tokenKey "rt1")
       = some (refreshTokenSignedLifetime ⟨15 * 60, 24 * 60 * 60⟩)) := by
  decide

/-- Claim C8 (amended): issuing a token pair stores the refresh token in the
session registry with the hard-coded TTL of `7 * 24 * 60 * 60` seconds; this
equals the refresh token's signed lifetime only under the default
configuration (`refreshExpiresIn = '7d'`), not for every configured
lifetime. -/
theorem registry_ttl_hardcoded_seven_days (r : RedisState)
    (userId accessTok refreshTok : String) :
    redisGetTtl (generateTokenPair r userId accessTok refreshTok).2
        (.tokenKey refreshTok)
      = some REFRESH_REGISTRY_TTL
    ∧ refreshTokenSignedLifetime defaultJwtConfig = REFRESH_REGISTRY_TTL :=
  ⟨redisGetTtl_setex_self r (.tokenKey refreshTok) REFRESH_REGISTRY_TTL userId,
   rfl⟩

/-! ### Claim C4 -/

/-- Claim C4: `blacklistToken` reads the token's `exp` claim via an
unverified decode and computes the remaining seconds `exp - now`; when the
token has no decodable `exp` claim, or the remaining lifetime is not
positive, no blacklist entry is written (the registry is unchanged); when the
remaining lifetime is positive (with `now` a genuine epoch time, `0 ≤ now`),
it writes exactly one `"1"` marker under the token's blacklist key with
exactly that TTL. -/
theorem blacklist_ttl_derivation (decodeExp : String → Option Int)
    (nowSec : Int) (r : RedisState) (tok : String) :
    (decodeExp tok = none → blacklistToken decodeExp nowSec r tok = r)
    ∧ (∀ e, decodeExp tok = some e → e - nowSec ≤ 0 →
        blacklistToken decodeExp nowSec r tok = r)
    ∧ (∀ e, decodeExp tok = some e → 0 ≤ nowSec → 0 < e - nowSec →
        blacklistToken decodeExp nowSec r tok
          = redisSetex r (.blacklistKey tok) (e - nowSec) "1"
        ∧ redisGetTtl (blacklistToken decodeExp nowSec r tok)
            (.blacklistKey tok)
          = some (e - nowSec)) := by
  refine ⟨?_, ?_, ?_⟩
  · intro h
    simp [blacklistToken, h]
  · intro e he hle
    simp only [blacklistToken, he]
    by_cases h0 : e = 0
    · simp [h0]
    · simp only [beq_iff_eq, h0, if_false]
      simp [show ¬(0 < e - nowSec) from by omega]
  · intro e he h0 hlt
    have hne : ¬(e = 0) := by omega
    have hstep : blacklistToken decodeExp nowSec r tok
        = redisSetex r (.blacklistKey tok) (e - nowSec) "1" := by
      simp only [blacklistToken, he, beq_iff_eq, hne, if_false]
      simp [hlt]
    exact ⟨hstep, by rw [hstep]; exact redisGetTtl_setex_self _ _ _ _⟩

/-- Claim C4 (witness): with a token whose `exp` claim decodes to 100 at
`now = 40`, blacklisting writes the marker with TTL exactly 60; a token with
no `exp` claim writes nothing; the same token at `now = 200` (already
expired) writes nothing. -/
theorem blacklist_ttl_derivation_witness :
    blacklistToken (fun t => if t == "tokA" then some 100 else none) 40
        emptyRedis "tokA"
      = redisSetex emptyRedis (.blacklistKey "tokA") 60 "1"
    ∧ redisGetTtl (blacklistToken (fun t => if t == "tokA" then some 100 else none)
          40 emptyRedis "tokA") (.blacklistKey "tokA")
      = some 60
    ∧ blacklistToken (fun t => if t == "tokA" then some 100 else none) 40
        emptyRedis "tokB"
      = emptyRedis
    ∧ blacklistToken (fun t => if t == "tokA" then some 100 else none) 200
        emptyRedis "tokA"
      = emptyRedis :=
  ⟨((blacklist_ttl_derivation (fun t => if t == "tokA" then some 100 else none)
      40 emptyRedis "tokA").2.2 100 (by decide) (by decide) (by decide)).1,
   ((blacklist_ttl_derivation (fun t => if t == "tokA" then some 100 else none)
      40 emptyRedis "tokA").2.2 100 (by decide) (by decide) (by decide)).2,
   (blacklist_ttl_derivation (fun t => if t == "tokA" then some 100 else none)
      40 emptyRedis "tokB").1 (by decide),
   (blacklist_ttl_derivation (fun t => if t == "tokA" then some 100 else none)
      200 emptyRedis "tokA").2.1 100 (by decide) (by decide)⟩

/-! ### Claim C2 -/

/-- Claim C2: the guard rejects `NO_TOKEN` when the Authorization header is
missing or does not start with `"Bearer "`; otherwise it consults the
blacklist before signature verification and rejects `TOKEN_REVOKED` when the
token is blacklisted; otherwise a failed verification rejects
`INVALID_TOKEN`; otherwise the decoded claims are attached and the handler
proceeds. -/
theorem auth_guard_check_order (verifyAccess : String → Option TokenPayload)
    (r : RedisState) :
    (authMiddleware verifyAccess r none = .noToken)
    ∧ (∀ h, jsStartsWith h "Bearer " = false →
        authMiddleware verifyAccess r (some h) = .noToken)
    ∧ (∀ h, jsStartsWith h "Bearer " = true →
        isTokenBlacklisted r (extractBearer h) = true →
        authMiddleware verifyAccess r (some h) = .tokenRevoked)
    ∧ (∀ h, jsStartsWith h "Bearer " = true →
        isTokenBlacklisted r (extractBearer h) = false →
        verifyAccess (extractBearer h) = none →
        authMiddleware verifyAccess r (some h) = .invalidToken)
    ∧ (∀ h claims, jsStartsWith h "Bearer " = true →
        isTokenBlacklisted r (extractBearer h) = false →
        verifyAccess (extractBearer h) = some claims →
        authMiddleware verifyAccess r (some h) = .authorized claims) := by
  refine ⟨rfl, ?_, ?_, ?_, ?_⟩ <;> intros <;> simp_all [authMiddleware]

/-- A concrete access-token verifier accepting exactly `tok1`. -/
def sampleVerifyAccess : String → Option TokenPayload :=
  fun t => if t == "tok1" then some ⟨"u1", "alice@example.com", "customer"⟩
           else none

/-- A registry in which `tokR` is blacklisted. -/
def sampleBlacklistOnly : RedisState :=
  redisSetex emptyRedis (.blacklistKey "tokR") 100 "1"

/-- Claim C2 (witness): all four guard outcomes at concrete inputs — missing
header, malformed header, blacklisted token, unverifiable token, and a valid
token whose claims are attached. -/
theorem auth_guard_check_order_witness :
    authMiddleware sampleVerifyAccess emptyRedis none = .noToken
    ∧ authMiddleware sampleVerifyAccess emptyRedis (some "Token tok1")
        = .noToken
    ∧ authMiddleware sampleVerifyAccess sampleBlacklistOnly
        (some "Bearer tokR") = .tokenRevoked
    ∧ authMiddleware sampleVerifyAccess emptyRedis (some "Bearer nope")
        = .invalidToken
    ∧ authMiddleware sampleVerifyAccess emptyRedis (some "Bearer tok1")
        = .authorized ⟨"u1", "alice@example.com", "customer"⟩ :=
  ⟨(auth_guard_check_order sampleVerifyAccess emptyRedis).1,
   (auth_guard_check_order sampleVerifyAccess emptyRedis).2.1
     "Token tok1" (by decide),
   (auth_guard_check_order sampleVerifyAccess sampleBlacklistOnly).2.2.1
     "Bearer tokR" (by decide) (by decide),
   (auth_guard_check_order sampleVerifyAccess emptyRedis).2.2.2.1
     "Bearer nope" (by decide) (by decide) (by decide),
   (auth_guard_check_order sampleVerifyAccess emptyRedis).2.2.2.2
     "Bearer tok1" ⟨"u1", "alice@example.com", "customer"⟩
     (by decide) (by decide) (by decide)⟩

/-! ### Claim C3 -/

/-- Claim C3: login fails `INVALID_CREDENTIALS` (401) when the email is
unknown or the password does not verify — the latter regardless of
`isActive`, because the credential check runs before the active-check — and
fails `ACCOUNT_DEACTIVATED` (403) when the password verifies but the user is
inactive.  All failures leave the stores untouched. -/
theorem login_failure_precedence (compare : String → String → Bool)
    (users : List StoredUser) (r : RedisState) (email password : String)
    (now : Int) (newAccess newRefresh : String) :
    (findByEmail users email = none →
      login compare users r email password now newAccess newRefresh
        = (.invalidCredentials, users, r))
    ∧ (∀ u, findByEmail users email = some u →
        compare password u.password = false →
        login compare users r email password now newAccess newRefresh
          = (.invalidCredentials, users, r))
    ∧ (∀ u, findByEmail users email = some u →
        compare password u.password = true → u.isActive = false →
        login compare users r email password now newAccess newRefresh
          = (.accountDeactivated, users, r)) := by
  refine ⟨?_, ?_, ?_⟩ <;> intros <;> simp_all [login]

/-- Sample bcrypt model: the hash of `s` is `s ++ "#h"`, and comparison
checks the candidate against the stored hash. -/
def sampleCompare : String → String → Bool :=
  fun candidate stored => (candidate ++ "#h") == stored

/-- A deactivated user whose correct password is `pw`. -/
def sampleDeactivatedUser : StoredUser :=
  ⟨"u2", "bob@example.com", "pw#h", "Bob", "B", "customer", false, true,
   none, none, none, none, []⟩

/-- Claim C3 (witness): on the deactivated user, a wrong password reports
`INVALID_CREDENTIALS`, the correct password reports `ACCOUNT_DEACTIVATED`,
and an unknown email reports `INVALID_CREDENTIALS`. -/
theorem login_failure_precedence_witness :
    login sampleCompare [sampleDeactivatedUser] emptyRedis
        "bob@example.com" "wrong" 0 "a1" "r1"
      = (.invalidCredentials, [sampleDeactivatedUser], emptyRedis)
    ∧ login sampleCompare [sampleDeactivatedUser] emptyRedis
        "bob@example.com" "pw" 0 "a1" "r1"
      = (.accountDeactivated, [sampleDeactivatedUser], emptyRedis)
    ∧ login sampleCompare [sampleDeactivatedUser] emptyRedis
        "nobody@example.com" "pw" 0 "a1" "r1"
      = (.invalidCredentials, [sampleDeactivatedUser], emptyRedis) :=
  ⟨(login_failure_precedence sampleCompare [sampleDeactivatedUser] emptyRedis
      "bob@example.com" "wrong" 0 "a1" "r1").2.1 sampleDeactivatedUser
      (by decide) (by decide),
   (login_failure_precedence sampleCompare [sampleDeactivatedUser] emptyRedis
      "bob@example.com" "pw" 0 "a1" "r1").2.2 sampleDeactivatedUser
      (by decide) (by decide) (by decide),
   (login_failure_precedence sampleCompare [sampleDeactivatedUser] emptyRedis
      "nobody@example.com" "pw" 0 "a1" "r1").1 (by decide)⟩

/-! ### Claim C7 -/

/-- Claim C7: for every user record, the serialized user object
(`user.toJSON()`) contains no `password` hash, no `refreshTokens` list, no
`emailVerificationToken` and no `passwordResetToken` field, whatever the
stored record holds. -/
theorem user_toJSON_strips_sensitive (u : StoredUser) :
    (userToJSON u).all
      (fun kv => kv.1 != "password" && kv.1 != "refreshTokens"
        && kv.1 != "emailVerificationToken"
        && kv.1 != "passwordResetToken") = true := by
  rw [List.all_eq_true]
  intro kv hkv
  simp only [userToJSON, toJSONTransform] at hkv
  have h2 := (List.mem_filter.mp hkv).2
  simp only [Bool.not_eq_true'] at h2
  simp only [strippedFields] at h2
  simp at h2
  simp [h2.1, h2.2.1, h2.2.2.1, h2.2.2.2.1]

/-! ### Claim C5 -/

/-- A user on file for exercising `forgotPassword`. -/
def sampleUserCarol : StoredUser :=
  ⟨"u5", "carol@example.com", "pw#h", "Carol", "C", "customer", true, true,
   none, none, none, none, []⟩

/-- Claim C5 (counterexample): in development mode (`NODE_ENV =
'development'`) the response for an existing email carries the fresh reset
token while the response for an unknown email does not, so the two responses
are distinguishable and the claim as stated (same response for every pair of
emails) fails. -/
theorem forgot_password_dev_token_leak_cex :
    ¬ ((forgotPassword "development" [sampleUserCarol] "carol@example.com"
          "rtok" 0).1
       = (forgotPassword "development" [sampleUserCarol]
          "nobody@example.com" "rtok" 0).1) := by
  decide

/-- Claim C5 (amended): `forgotPassword` always returns success with the
same generic message and never a user-facing error; outside development mode
(`env ≠ "development"`) the full response is identical for every pair of
input emails, revealing nothing about whether the email was found.  In
development mode the response for an existing email additionally carries the
reset token. -/
theorem forgot_password_non_enumeration_amended (env : String)
    (users : List StoredUser) (email1 email2 tok : String) (nowMs : Int) :
    ((forgotPassword env users email1 tok nowMs).1.success = true
      ∧ (forgotPassword env users email1 tok nowMs).1.message
        = "If the email exists, a reset link has been sent")
    ∧ (env ≠ "development" →
        (forgotPassword env users email1 tok nowMs).1
          = (forgotPassword env users email2 tok nowMs).1) := by
  constructor
  · unfold forgotPassword
    cases hf : findByEmail users email1 <;>
      simp [generatePasswordResetToken]
  · intro henv
    unfold forgotPassword
    cases hf1 : findByEmail users email1 <;>
      cases hf2 : findByEmail users email2 <;>
        simp [generatePasswordResetToken, henv]

/-- Claim C5 (witness): in production mode the responses for an existing and
an unknown email coincide, and the generic success message is returned. -/
theorem forgot_password_non_enumeration_amended_witness :
    ((forgotPassword "production" [sampleUserCarol] "carol@example.com"
        "rtok" 0).1.success = true
      ∧ (forgotPassword "production" [sampleUserCarol] "carol@example.com"
          "rtok" 0).1.message
        = "If the email exists, a reset link has been sent")
    ∧ (forgotPassword "production" [sampleUserCarol] "carol@example.com"
        "rtok" 0).1
      = (forgotPassword "production" [sampleUserCarol] "nobody@example.com"
          "rtok" 0).1 :=
  ⟨(forgot_password_non_enumeration_amended "production" [sampleUserCarol]
      "carol@example.com" "nobody@example.com" "rtok" 0).1,
   (forgot_password_non_enumeration_amended "production" [sampleUserCarol]
      "carol@example.com" "nobody@example.com" "rtok" 0).2 (by decide)⟩

/-! ### Claim C6 -/

/-- Claim C6: `generatePasswordResetToken` sets the expiry to now + 1 hour
(3600000 ms) and the token on the entity; `resetPassword` succeeds exactly
when some user holds the presented token with an expiry strictly in the
future; a success persists exactly the matched user with the new (hashed)
password and with `passwordResetToken` and `passwordResetExpires` both
cleared, so (when the token was held by that single user) presenting the
same token a second time fails with `INVALID_TOKEN`; a miss or an expired
token yields `INVALID_TOKEN` with no state change (covered by the
success-iff-match equivalence applied to a registry with no match). -/
theorem reset_password_window_single_use (hash : String → String)
    (users : List StoredUser) (token pw pw2 : String) (nowMs now2 : Int)
    (u : StoredUser)
    (hfind : users.find? (resetMatches nowMs token) = some u)
    (huniq : ∀ v ∈ users, v.passwordResetToken = some token → v = u) :
    (∀ u0 t n, ((generatePasswordResetToken u0 t n).2).passwordResetExpires
        = some (n + 3600000)
      ∧ ((generatePasswordResetToken u0 t n).2).passwordResetToken = some t)
    ∧ (∀ us tk p nw, ((resetPassword hash us tk p nw).1 = ResetResult.ok
        ↔ us.any (resetMatches nw tk) = true))
    ∧ (resetPassword hash users token pw nowMs).1 = ResetResult.ok
    ∧ (resetPassword hash users token pw nowMs).2
        = saveUser users { u with
            password := hash pw,
            passwordResetToken := none,
            passwordResetExpires := none }
    ∧ (∀ v ∈ (resetPassword hash users token pw nowMs).2, v.id = u.id →
        v.password = hash pw ∧ v.passwordResetToken = none
          ∧ v.passwordResetExpires = none)
    ∧ (∀ v ∈ (resetPassword hash users token pw nowMs).2,
        v.passwordResetToken ≠ some token)
    ∧ (resetPassword hash ((resetPassword hash users token pw nowMs).2)
        token pw2 now2).1 = ResetResult.invalidToken := by
  have hmem := List.mem_of_find?_eq_some hfind
  have hmatch := List.find?_some hfind
  have hstore : (resetPassword hash users token pw nowMs).2
      = saveUser users { u with
          password := hash pw,
          passwordResetToken := none,
          passwordResetExpires := none } := by
    simp [resetPassword, hfind]
  have hset : ∀ v ∈ (resetPassword hash users token pw nowMs).2,
      v.id = u.id →
      v.password = hash pw ∧ v.passwordResetToken = none
        ∧ v.passwordResetExpires = none := by
    rw [hstore]
    intro v hv hvid
    simp only [saveUser, List.mem_map] at hv
    obtain ⟨w, hw, he⟩ := hv
    by_cases hid : (w.id == u.id) = true
    · rw [if_pos hid] at he
      rw [← he]
      exact ⟨rfl, rfl, rfl⟩
    · rw [if_neg hid] at he
      rw [← he] at hvid
      simp [hvid] at hid
  have hclear : ∀ v ∈ (resetPassword hash users token pw nowMs).2,
      v.passwordResetToken ≠ some token := by
    simp only [resetPassword, hfind]
    intro v hv
    simp only [saveUser, List.mem_map] at hv
    obtain ⟨w, hw, he⟩ := hv
    by_cases hid : (w.id == u.id) = true
    · rw [if_pos hid] at he
      rw [← he]
      simp
    · rw [if_neg hid] at he
      intro htok
      rw [← he] at htok
      have := huniq w hw htok
      rw [this] at hid
      simp at hid
  refine ⟨?_, ?_, ?_, hstore, hset, hclear, ?_⟩
  · intro u0 t n
    exact ⟨rfl, rfl⟩
  · intro us tk p nw
    cases hf : us.find? (resetMatches nw tk) with
    | none =>
      have hnone := List.find?_eq_none.mp hf
      simp only [resetPassword, hf]
      constructor
      · intro hcontra
        exact absurd hcontra (by simp)
      · intro hany
        obtain ⟨x, hx, hpx⟩ := List.any_eq_true.mp hany
        exact absurd hpx (hnone x hx)
    | some v =>
      have hvmem := List.mem_of_find?_eq_some hf
      have hpv := List.find?_some hf
      simp only [resetPassword, hf]
      constructor
      · intro _
        exact List.any_eq_true.mpr ⟨v, hvmem, hpv⟩
      · intro _
        trivial
  · simp [resetPassword, hfind]
  · have hfail : ∀ (us : List StoredUser) (tk p : String) (nw : Int),
        us.find? (resetMatches nw tk) = none →
        resetPassword hash us tk p nw = (ResetResult.invalidToken, us) := by
      intro us tk p nw hf
      simp [resetPassword, hf]
    cases hf2 : ((resetPassword hash users token pw nowMs).2).find?
        (resetMatches now2 token) with
    | none => rw [hfail _ _ _ _ hf2]
    | some v =>
      have hvmem := List.mem_of_find?_eq_some hf2
      have hpv := List.find?_some hf2
      have htok : v.passwordResetToken = some token := by
        have h1 := (Bool.and_eq_true _ _).mp hpv |>.1
        simpa using h1
      exact absurd htok (hclear v hvmem)

/-- A user holding the live reset token `rst` that expires at 1000 ms. -/
def sampleUserDan : StoredUser :=
  ⟨"u6", "dan@example.com", "old#h", "Dan", "D", "customer", true, true,
   none, some "rst", some 1000, none, []⟩

/-- Claim C6 (witness): at 500 ms (before expiry) resetting with `rst`
succeeds and persists Dan's record with the new hashed password and both
reset fields cleared; replaying the same token against the resulting store
fails with `INVALID_TOKEN`. -/
theorem reset_password_window_single_use_witness :
    (resetPassword (fun s => s ++ "#h") [sampleUserDan] "rst" "npw" 500).1
      = ResetResult.ok
    ∧ (resetPassword (fun s => s ++ "#h") [sampleUserDan] "rst" "npw" 500).2
      = saveUser [sampleUserDan]
          { sampleUserDan with
            password := "npw" ++ "#h",
            passwordResetToken := none,
            passwordResetExpires := none }
    ∧ (∀ v ∈ (resetPassword (fun s => s ++ "#h") [sampleUserDan] "rst"
          "npw" 500).2, v.id = sampleUserDan.id →
        v.password = "npw" ++ "#h" ∧ v.passwordResetToken = none
          ∧ v.passwordResetExpires = none)
    ∧ (resetPassword (fun s => s ++ "#h")
        ((resetPassword (fun s => s ++ "#h") [sampleUserDan] "rst" "npw"
          500).2) "rst" "npw2" 600).1
      = ResetResult.invalidToken :=
  ⟨(reset_password_window_single_use (fun s => s ++ "#h") [sampleUserDan]
      "rst" "npw" "npw2" 500 600 sampleUserDan (by decide)
      (by decide)).2.2.1,
   (reset_password_window_single_use (fun s => s ++ "#h") [sampleUserDan]
      "rst" "npw" "npw2" 500 600 sampleUserDan (by decide)
      (by decide)).2.2.2.1,
   (reset_password_window_single_use (fun s => s ++ "#h") [sampleUserDan]
      "rst" "npw" "npw2" 500 600 sampleUserDan (by decide)
      (by decide)).2.2.2.2.1,
   (reset_password_window_single_use (fun s => s ++ "#h") [sampleUserDan]
      "rst" "npw" "npw2" 500 600 sampleUserDan (by decide)
      (by decide)).2.2.2.2.2.2⟩

/-! ### Claim C9 -/

/-- Claim C9: every failing path of `refreshToken` — signature failure,
registry miss or user-id mismatch (`INVALID_REFRESH_TOKEN` 401), user record
gone or deactivated (`USER_NOT_FOUND` 404) — returns before any registry
write, so the Redis state is unchanged; in particular after a
`USER_NOT_FOUND` failure the presented token is still registered exactly as
before. -/
theorem refresh_failure_preserves_registry (verifyRefresh : String → Option String)
    (users : List StoredUser) (r : RedisState) (tok newAccess newRefresh : String) :
    ((refreshToken verifyRefresh users r tok newAccess newRefresh).1
        = RefreshResult.invalidRefreshToken →
      (refreshToken verifyRefresh users r tok newAccess newRefresh).2 = r)
    ∧ ((refreshToken verifyRefresh users r tok newAccess newRefresh).1
        = RefreshResult.userNotFound →
      (refreshToken verifyRefresh users r tok newAccess newRefresh).2 = r
      ∧ validateRefreshToken
          (refreshToken verifyRefresh users r tok newAccess newRefresh).2 tok
        = validateRefreshToken r tok) := by
  unfold refreshToken
  cases h1 : verifyRefresh tok with
  | none => simp
  | some decodedId =>
    cases h2 : validateRefreshToken r tok with
    | none => simp
    | some userId =>
      by_cases h3 : (userId == decodedId) = true
      · simp only [h3, Bool.not_true, Bool.false_eq_true, if_false]
        cases h4 : findById users userId with
        | none => simp [h2]
        | some user =>
          cases h5 : user.isActive with
          | false => simp [h5, h2]
          | true => simp [h5]
      · simp only [Bool.not_eq_true] at h3
        simp [h3]

/-- A refresh-token verifier accepting exactly `rt9` for user `u9`. -/
def sampleVerifyRefreshNine : String → Option String :=
  fun t => if t == "rt9" then some "u9" else none

/-- A registry holding the live refresh token `rt9` for user `u9`. -/
def sampleRegistryNine : RedisState :=
  redisSetex emptyRedis (.tokenKey "rt9") REFRESH_REGISTRY_TTL "u9"

/-- Claim C9 (witness): with a validly signed and registered token whose
user record is absent, refresh fails with `USER_NOT_FOUND` and the registry
entry for the presented token is untouched. -/
theorem refresh_failure_preserves_registry_witness :
    (refreshToken sampleVerifyRefreshNine [] sampleRegistryNine "rt9"
        "a9" "r9").1 = RefreshResult.userNotFound
    ∧ (refreshToken sampleVerifyRefreshNine [] sampleRegistryNine "rt9"
        "a9" "r9").2 = sampleRegistryNine
    ∧ validateRefreshToken
        (refreshToken sampleVerifyRefreshNine [] sampleRegistryNine "rt9"
          "a9" "r9").2 "rt9"
      = validateRefreshToken sampleRegistryNine "rt9" :=
  ⟨by decide,
   ((refresh_failure_preserves_registry sampleVerifyRefreshNine []
      sampleRegistryNine "rt9" "a9" "r9").2 (by decide)).1,
   ((refresh_failure_preserves_registry sampleVerifyRefreshNine []
      sampleRegistryNine "rt9" "a9" "r9").2 (by decide)).2⟩

/-- A refresh call whose registry lookup misses always fails with
`INVALID_REFRESH_TOKEN`. -/
theorem refreshToken_registry_miss (verifyRefresh : String → Option String)
    (users : List StoredUser) (r : RedisState) (tok newAccess newRefresh : String)
    (hv : validateRefreshToken r tok = none) :
    (refreshToken verifyRefresh users r tok newAccess newRefresh).1
      = RefreshResult.invalidRefreshToken := by
  unfold refreshToken
  cases h : verifyRefresh tok <;> simp [hv]

/-! ### Claim C1 -/

/-- Claim C1: with a refresh token that verifies, is registered to the same
user id, and belongs to a present, active user, the first `refresh` call
succeeds with a brand-new pair, the old registry entry for the presented
token is deleted, and a second `refresh` replaying the exact same token fails
with `INVALID_REFRESH_TOKEN` because the registry lookup finds no mapping
(`newRefresh ≠ tok` states that the reissued refresh token is fresh). -/
theorem refresh_single_use (verifyRefresh : String → Option String)
    (users : List StoredUser) (r : RedisState)
    (tok newAccess newRefresh newAccess2 newRefresh2 uid : String)
    (u : StoredUser)
    (h1 : verifyRefresh tok = some uid)
    (h2 : validateRefreshToken r tok = some uid)
    (h3 : findById users uid = some u)
    (h4 : u.isActive = true)
    (h5 : newRefresh ≠ tok) :
    (refreshToken verifyRefresh users r tok newAccess newRefresh).1
      = RefreshResult.ok ⟨newAccess, newRefresh⟩
    ∧ validateRefreshToken
        (refreshToken verifyRefresh users r tok newAccess newRefresh).2 tok
      = none
    ∧ (refreshToken verifyRefresh users
        ((refreshToken verifyRefresh users r tok newAccess newRefresh).2)
        tok newAccess2 newRefresh2).1
      = RefreshResult.invalidRefreshToken := by
  have hrun : refreshToken verifyRefresh users r tok newAccess newRefresh
      = (RefreshResult.ok ⟨newAccess, newRefresh⟩,
         redisSetex (redisDel r (.tokenKey tok)) (.tokenKey newRefresh)
           REFRESH_REGISTRY_TTL uid) := by
    simp [refreshToken, h1, h2, h3, h4, generateTokenPair,
      invalidateRefreshToken]
  have hkeys : RedisKey.tokenKey tok ≠ RedisKey.tokenKey newRefresh := by
    intro hk
    exact h5 (RedisKey.tokenKey.inj hk).symm
  have hgone : validateRefreshToken
      (refreshToken verifyRefresh users r tok newAccess newRefresh).2 tok
      = none := by
    rw [hrun]
    show redisGet _ (.tokenKey tok) = none
    rw [redisGet_setex_ne _ _ _ _ _ hkeys]
    exact redisGet_del_self r (.tokenKey tok)
  exact ⟨by rw [hrun], hgone,
    refreshToken_registry_miss verifyRefresh users _ tok newAccess2
      newRefresh2 hgone⟩

/-- An active user `u1` for the rotation scenario. -/
def sampleActiveAlice : StoredUser :=
  ⟨"u1", "alice@example.com", "pw#h", "A", "L", "customer", true, true,
   none, none, none, none, []⟩

/-- A refresh-token verifier: both the old and the reissued token carry
`u1`'s id and verify until their own expiry. -/
def sampleVerifyRefreshOne : String → Option String :=
  fun t => if t == "rtOld" then some "u1"
           else if t == "rtNew" then some "u1" else none

/-- A registry holding the live refresh token `rtOld` for `u1`. -/
def sampleRegistryOne : RedisState :=
  redisSetex emptyRedis (.tokenKey "rtOld") REFRESH_REGISTRY_TTL "u1"

/-- Claim C1 (witness): the concrete rotation scenario — first refresh with
`rtOld` succeeds and issues the fresh pair, the registry mapping for `rtOld`
is gone, and a second refresh replaying `rtOld` fails with
`INVALID_REFRESH_TOKEN`. -/
theorem refresh_single_use_witness :
    (refreshToken sampleVerifyRefreshOne [sampleActiveAlice]
        sampleRegistryOne "rtOld" "atNew" "rtNew").1
      = RefreshResult.ok ⟨"atNew", "rtNew"⟩
    ∧ validateRefreshToken
        (refreshToken sampleVerifyRefreshOne [sampleActiveAlice]
          sampleRegistryOne "rtOld" "atNew" "rtNew").2 "rtOld"
      = none
    ∧ (refreshToken sampleVerifyRefreshOne [sampleActiveAlice]
        ((refreshToken sampleVerifyRefreshOne [sampleActiveAlice]
          sampleRegistryOne "rtOld" "atNew" "rtNew").2)
        "rtOld" "at2" "rt2").1
      = RefreshResult.invalidRefreshToken :=
  refresh_single_use sampleVerifyRefreshOne [sampleActiveAlice]
    sampleRegistryOne "rtOld" "atNew" "rtNew" "at2" "rt2" "u1"
    sampleActiveAlice (by decide) (by decide) (by decide) (by decide)
    (by decide)

/-! ### Claim C10 -/

/-- Claim C10: for a found user, `updateProfile` returns that user's record
with at most `firstName` and `lastName` changed — every other field is
untouched — and persists exactly that record; an absent or empty-string
request field is ignored (the stored value is kept), while a non-empty field
overwrites the name. -/
theorem update_profile_frame (users : List StoredUser) (userId : String)
    (req : UpdateProfileRequest) (u : StoredUser)
    (hfind : findById users userId = some u) :
    ∃ u2, updateProfile users userId req
        = (UpdateResult.ok u2, saveUser users u2)
      ∧ u2.id = u.id ∧ u2.email = u.email ∧ u2.password = u.password
      ∧ u2.role = u.role ∧ u2.isActive = u.isActive
      ∧ u2.isEmailVerified = u.isEmailVerified
      ∧ u2.emailVerificationToken = u.emailVerificationToken
      ∧ u2.passwordResetToken = u.passwordResetToken
      ∧ u2.passwordResetExpires = u.passwordResetExpires
      ∧ u2.lastLogin = u.lastLogin
      ∧ u2.refreshTokens = u.refreshTokens
      ∧ (truthyStr req.firstName = false → u2.firstName = u.firstName)
      ∧ (truthyStr req.lastName = false → u2.lastName = u.lastName)
      ∧ (∀ s, req.firstName = some s → s.data.isEmpty = false →
          u2.firstName = s)
      ∧ (∀ s, req.lastName = some s → s.data.isEmpty = false →
          u2.lastName = s) := by
  rcases req with ⟨fn, ln⟩
  cases fn with
  | none =>
    cases ln with
    | none =>
      refine ⟨u, ?_⟩
      simp [updateProfile, hfind, truthyStr]
    | some t =>
      cases ht : t.data.isEmpty with
      | true =>
        have ht2 : t.data = [] := by simpa using ht
        refine ⟨u, ?_⟩
        simp [updateProfile, hfind, truthyStr, ht, ht2]
      | false =>
        refine ⟨{ u with lastName := t }, ?_⟩
        simp [updateProfile, hfind, truthyStr, ht]
  | some s =>
    cases hs : s.data.isEmpty with
    | true =>
      have hs2 : s.data = [] := by simpa using hs
      cases ln with
      | none =>
        refine ⟨u, ?_⟩
        simp [updateProfile, hfind, truthyStr, hs, hs2]
      | some t =>
        cases ht : t.data.isEmpty with
        | true =>
          have ht2 : t.data = [] := by simpa using ht
          refine ⟨u, ?_⟩
          simp [updateProfile, hfind, truthyStr, hs, ht, hs2, ht2]
        | false =>
          refine ⟨{ u with lastName := t }, ?_⟩
          simp [updateProfile, hfind, truthyStr, hs, ht, hs2]
    | false =>
      cases ln with
      | none =>
        refine ⟨{ u with firstName := s }, ?_⟩
        simp [updateProfile, hfind, truthyStr, hs]
      | some t =>
        cases ht : t.data.isEmpty with
        | true =>
          have ht2 : t.data = [] := by simpa using ht
          refine ⟨{ u with firstName := s }, ?_⟩
          simp [updateProfile, hfind, truthyStr, hs, ht, ht2]
        | false =>
          refine ⟨{ u with firstName := s, lastName := t }, ?_⟩
          simp [updateProfile, hfind, truthyStr, hs, ht]

/-- A user on file for the profile-update scenario. -/
def sampleProfileEve : StoredUser :=
  ⟨"u7", "eve@example.com", "pw#h", "Eve", "Old", "customer", true, true,
   none, none, none, none, []⟩

/-- Claim C10 (witness): a request with an empty `firstName` and a non-empty
`lastName` keeps `firstName = "Eve"`, sets `lastName = "New"`, and leaves
all other fields unchanged. -/
theorem update_profile_frame_witness :
    ∃ u2, updateProfile [sampleProfileEve] "u7" ⟨some "", some "New"⟩
        = (UpdateResult.ok u2, saveUser [sampleProfileEve] u2)
      ∧ u2.id = sampleProfileEve.id ∧ u2.email = sampleProfileEve.email
      ∧ u2.password = sampleProfileEve.password
      ∧ u2.role = sampleProfileEve.role
      ∧ u2.isActive = sampleProfileEve.isActive
      ∧ u2.isEmailVerified = sampleProfileEve.isEmailVerified
      ∧ u2.emailVerificationToken = sampleProfileEve.emailVerificationToken
      ∧ u2.passwordResetToken = sampleProfileEve.passwordResetToken
      ∧ u2.passwordResetExpires = sampleProfileEve.passwordResetExpires
      ∧ u2.lastLogin = sampleProfileEve.lastLogin
      ∧ u2.refreshTokens = sampleProfileEve.refreshTokens
      ∧ (truthyStr (some "") = false → u2.firstName = sampleProfileEve.firstName)
      ∧ (truthyStr (some "New") = false → u2.lastName = sampleProfileEve.lastName)
      ∧ (∀ s, (some "" : Option String) = some s → s.data.isEmpty = false →
          u2.firstName = s)
      ∧ (∀ s, (some "New" : Option String) = some s → s.data.isEmpty = false →
          u2.lastName = s) :=
  update_profile_frame [sampleProfileEve] "u7" ⟨some "", some "New"⟩
    sampleProfileEve (by decide)
